import Mathlib

/-!
Verification development for the deriva-groups-ui client.

Shallow embedding of the logic-bearing parts of the source:
  * `src/shared/utils/api.ts` (the axios interceptors and `authAPI.logout`),
  * `src/shared/contexts/AuthContext.tsx` (`fetchUser` session normalization),
  * `src/apps/groups/pages/GroupDetail.tsx` (`loadGroupData` and the
    destructive-action handlers, plus the invitations-tab rendering),
  * `src/apps/groups/pages/AcceptInvitation.tsx` (the `isExpired` rendering).

JavaScript dynamic values that the code inspects for truthiness are modelled
by the small inductive `JVal`; `jor` is the JS `||` operator restricted to
those values.  Network effects are modelled by passing the outcome of each
HTTP call (`Except AxiosError _`) explicitly to the function that awaits it,
and browser side effects (assignments to `window.location.href`, issued API
calls) are returned as data.
-/

namespace DerivaGroupsUI

/-- A JavaScript value as far as the client code inspects one: the code only
ever branches on truthiness and copies values around, so primitive values
suffice (arrays and counts that the code defaults with `|| []` / `|| 0` are
modelled with `Option`, which coincides with JS truthiness for the
array-or-absent and number-or-absent payloads this API produces). -/
inductive JVal where
  | undef
  | null
  | bool (b : Bool)
  | num (n : Int)
  | str (s : String)
deriving DecidableEq

/-- JS truthiness on `JVal`: `undefined`, `null`, `false`, `0` and `""` are
falsy, everything else truthy. -/
def truthy : JVal → Bool
  | .undef => false
  | .null => false
  | .bool b => b
  | .num n => n != 0
  | .str s => s != ""

/-- The JS `||` operator: the left operand when it is truthy, else the right. -/
def jor (a b : JVal) : JVal := if truthy a then a else b

/-- `GroupMembership` from `api.ts`. -/
structure GroupMembership where
  group_id : String
  user_id : String
  user_email : String
  role : String
  joined_at : String
  updated_at : String
  added_by : String
deriving DecidableEq

/-- `Group` from `api.ts` (the fields the pages read). -/
structure Group where
  id : String
  name : String
  description : String
  visibility : String
  created_at : String
  updated_at : String
  created_by : String
  membership : Option GroupMembership
  member_count : Option Int
deriving DecidableEq

/-- `GroupInvitation` from `api.ts`.  `expires_at` is the parsed timestamp
(epoch milliseconds), since the client compares it with `new Date(...)`. -/
structure GroupInvitation where
  id : String
  group_id : String
  email : String
  role : String
  token : String
  created_at : String
  expires_at : Int
  status : String
  invited_by : String
deriving DecidableEq

/-- `JoinRequest` from `api.ts`. -/
structure JoinRequest where
  id : String
  group_id : String
  user_id : String
  user_email : String
  user_name : String
  message : String
  created_at : String
  status : String
  reviewer_comment : String
deriving DecidableEq

/-- The `client` object of a legacy-shaped `/session` payload
(`AuthContext.tsx`, legacy branch of `fetchUser`). -/
structure ClientObj where
  id : JVal
  email : JVal
  display_name : JVal
  full_name : JVal
deriving DecidableEq

/-- A `/session` response body as `fetchUser` reads it.  `client = some _`
is the legacy shape (JS objects are always truthy, so `if (data.client)`
takes the legacy branch exactly when the field holds an object). -/
structure SessionPayload where
  client : Option ClientObj
  id : JVal
  email : JVal
  preferred_username : JVal
  full_name : JVal
  email_verified : JVal
  group_memberships : Option (List GroupMembership)
  pending_invitations_count : Option Int
deriving DecidableEq

/-- The normalized `User` record built by `fetchUser`. -/
structure User where
  id : JVal
  email : JVal
  preferred_username : JVal
  full_name : JVal
  email_verified : JVal
  group_memberships : List GroupMembership
  pending_invitations_count : Int
deriving DecidableEq

/-- The normalization performed inside `fetchUser` (`AuthContext.tsx`
lines 40-65): legacy payloads take the user fields from `data.client` and
default `email_verified` with `|| "unknown"`; flat payloads copy the
top-level fields with `email_verified` passed through unchanged.  Both
branches default `group_memberships` with `|| []` and
`pending_invitations_count` with `|| 0`. -/
def normalizeUser (data : SessionPayload) : User :=
  match data.client with
  | some client =>
    { id := client.id
      email := client.email
      preferred_username := client.display_name
      full_name := client.full_name
      email_verified := jor data.email_verified (JVal.str "unknown")
      group_memberships := data.group_memberships.getD []
      pending_invitations_count := data.pending_invitations_count.getD 0 }
  | none =>
    { id := data.id
      email := data.email
      preferred_username := data.preferred_username
      full_name := data.full_name
      email_verified := data.email_verified
      group_memberships := data.group_memberships.getD []
      pending_invitations_count := data.pending_invitations_count.getD 0 }

/-- The body of an error response as the interceptor reads it
(`error.response.data.message / .error / .detail`).  A body that is a truthy
non-object value behaves like an object with all three fields `undefined`. -/
structure ErrBody where
  message : JVal
  error : JVal
  detail : JVal
deriving DecidableEq

/-- `error.response`: the HTTP status together with the body;
`data = none` models a falsy body (`undefined`, `null` or `""`). -/
structure ErrResponse where
  status : Nat
  data : Option ErrBody
deriving DecidableEq

/-- An axios error object as the interceptor and the catch blocks read it:
`response` is present when the server answered, `request` is true when a
request object exists (a request went out), and `userMessage` is the field
the interceptor attaches. -/
structure AxiosError where
  response : Option ErrResponse
  request : Bool
  userMessage : Option JVal
deriving DecidableEq

/-- Hexadecimal digit (uppercase, as produced by `encodeURIComponent`). -/
def hexDigitChar (n : Nat) : Char :=
  if n < 10 then Char.ofNat (48 + n) else Char.ofNat (55 + n % 16)

/-- `%XX` escape of one byte. -/
def percentEncodeByte (b : Nat) : String :=
  String.mk [Char.ofNat 37, hexDigitChar (b / 16 % 16), hexDigitChar (b % 16)]

/-- UTF-8 bytes of a Unicode code point. -/
def utf8Bytes (n : Nat) : List Nat :=
  if n < 128 then [n]
  else if n < 2048 then [192 + n / 64, 128 + n % 64]
  else if n < 65536 then [224 + n / 4096, 128 + n / 64 % 64, 128 + n % 64]
  else [240 + n / 262144, 128 + n / 4096 % 64, 128 + n / 64 % 64, 128 + n % 64]

/-- The characters `encodeURIComponent` leaves unescaped:
`A-Z a-z 0-9 - _ . ! ~ * ' ( )`. -/
def isUriUnescaped (c : Char) : Bool :=
  c.isAlpha || c.isDigit ||
    [Char.ofNat 45, Char.ofNat 95, Char.ofNat 46, Char.ofNat 33,
     Char.ofNat 126, Char.ofNat 42, Char.ofNat 39, Char.ofNat 40,
     Char.ofNat 41].contains c

/-- JavaScript `encodeURIComponent`. -/
def encodeURIComponent (s : String) : String :=
  String.join (s.toList.map (fun c =>
    if isUriUnescaped c then String.mk [c]
    else String.join ((utf8Bytes c.toNat).map percentEncodeByte)))

/-- True when `error.response?.status === 401`. -/
def is401 (e : AxiosError) : Bool :=
  match e.response with
  | some r => r.status == 401
  | none => false

/-- The user-facing message computed by the response interceptor
(`api.ts`, `setupInterceptors`): when `error.response?.data` is truthy,
`data.message || data.error || data.detail || "Server error (status)"`;
otherwise, when `error.request` exists, a connectivity message; otherwise
the initial generic message. -/
def computeUserMessage (e : AxiosError) : JVal :=
  match e.response with
  | some r =>
    match r.data with
    | some d =>
        jor d.message (jor d.error (jor d.detail
          (JVal.str ("Server error (" ++ toString r.status ++ ")"))))
    | none =>
        if e.request then
          JVal.str "Unable to connect to server. Please check your internet connection."
        else JVal.str "An unexpected error occurred"
  | none =>
    if e.request then
      JVal.str "Unable to connect to server. Please check your internet connection."
    else JVal.str "An unexpected error occurred"

deriving instance DecidableEq for Except

/-- What the response-error interceptor does: a possible assignment to
`window.location.href` plus the settled promise (`Except.error` = the
returned `Promise.reject`; an `Except.ok` would mean the caller's promise
chain resolves normally). -/
structure InterceptOutcome where
  browserRedirect : Option String
  result : Except AxiosError Unit
deriving DecidableEq

/-- The error branch of the response interceptor installed by
`setupInterceptors` (`api.ts` lines 68-88).  `setupInterceptors` is applied
to both axios instances (`api` and `auth`) with the same `authBaseUrl`
(`AUTH_API_BASE_URL`); `currentHref` is `window.location.href` at the time
the error arrives. -/
def responseErrorInterceptor (authBaseUrl currentHref : String)
    (e : AxiosError) : InterceptOutcome :=
  if is401 e then
    { browserRedirect :=
        some (authBaseUrl ++ "/login?referrer=" ++ encodeURIComponent currentHref)
      result := Except.error e }
  else
    { browserRedirect := none
      result := Except.error { e with userMessage := some (computeUserMessage e) } }

/-- The JSON body of a legacy `/logout` response (`response.data`);
`none` models a falsy `response.data`. -/
structure LogoutBody where
  logout_url : JVal
deriving DecidableEq

/-- Outcome of `authAPI.logout`: a possible assignment to
`window.location.href`, and whether the returned promise rejects. -/
structure LogoutOutcome where
  browserRedirect : Option JVal
  threw : Bool
deriving DecidableEq

/-- `authAPI.logout` (`api.ts` lines 176-195), given the settled result of
`auth.get('/logout', ...)`: on success it follows `response.data.logout_url`
when `response.data && response.data.logout_url` is truthy; every error is
caught by the surrounding try/catch and only logged, so the function itself
always resolves. -/
def authLogout (result : Except AxiosError (Option LogoutBody)) : LogoutOutcome :=
  match result with
  | Except.error _ => { browserRedirect := none, threw := false }
  | Except.ok none => { browserRedirect := none, threw := false }
  | Except.ok (some body) =>
    if truthy body.logout_url then
      { browserRedirect := some body.logout_url, threw := false }
    else { browserRedirect := none, threw := false }

/-- The state held by `AuthProvider` (`AuthContext.tsx`):
`user`, `loading`, `error`. -/
structure AuthState where
  user : Option User
  loading : Bool
  error : Option String
deriving DecidableEq

/-- The settled outcome of `authAPI.getCurrentUser()` as `fetchUser`
awaits it. -/
inductive FetchResult where
  | success (data : SessionPayload)
  | failure (e : AxiosError)
deriving DecidableEq

/-- True when `err.response?.status === 404`. -/
def is404 (e : AxiosError) : Bool :=
  match e.response with
  | some r => r.status == 404
  | none => false

/-- One run of `fetchUser` (`AuthContext.tsx` lines 32-79) from state `st`,
given the settled request outcome.  The function first sets
`loading := true` and `error := none`; on success it stores the normalized
user; on a 404 failure it sets `user := none` (leaving the cleared error in
place); on any other failure it sets the generic error message and leaves
`user` untouched; `finally` sets `loading := false`. -/
def fetchUser (st : AuthState) (r : FetchResult) : AuthState :=
  match r with
  | .success d => { user := some (normalizeUser d), loading := false, error := none }
  | .failure e =>
    if is404 e then { user := none, loading := false, error := none }
    else { user := st.user, loading := false
           error := some "Failed to fetch user information" }

/-- The local state of the `GroupDetail` page (`GroupDetail.tsx`
lines 44-51, without the modal/tab toggles). -/
structure PageState where
  group : Option Group
  members : List GroupMembership
  invitations : List GroupInvitation
  joinRequests : List JoinRequest
  loading : Bool
deriving DecidableEq

/-- The initial `useState` values of `GroupDetail`. -/
def initialPageState : PageState :=
  { group := none, members := [], invitations := [], joinRequests := []
    loading := true }

/-- The settled outcomes the network would hand to each of the four fetches
`loadGroupData` can issue. -/
structure GroupDetailNet where
  groupRes : Except AxiosError Group
  membersRes : Except AxiosError (List GroupMembership)
  invitationsRes : Except AxiosError (List GroupInvitation)
  joinRequestsRes : Except AxiosError (List JoinRequest)
deriving DecidableEq

/-- `userMembership && (userMembership.role === 'administrator' ||
userMembership.role === 'manager')` (`GroupDetail.tsx` line 75; the same
comparison gates the management UI at lines 214-215). -/
def canManageMembership : Option GroupMembership → Bool
  | some m => m.role == "administrator" || m.role == "manager"
  | none => false

/-- Result of one `loadGroupData` run: which fetches were issued, whether
the catch path was taken, and the resulting page state. -/
structure LoadOutcome where
  issuedGroup : Bool
  issuedMembers : Bool
  issuedInvitations : Bool
  issuedJoinRequests : Bool
  failed : Bool
  state : PageState
deriving DecidableEq

/-- `loadGroupData` (`GroupDetail.tsx` lines 59-98): sequential awaits
inside a single try/catch.  Group details, then members, then — only when
the fetched membership can manage the group — invitations and join
requests.  The first failing await jumps to the catch block, so no later
fetch is issued; state set by earlier completed awaits is kept, and
`finally` clears `loading`. -/
def loadGroupData (st0 : PageState) (net : GroupDetailNet) : LoadOutcome :=
  let st1 := { st0 with loading := true }
  match net.groupRes with
  | Except.error _ =>
    { issuedGroup := true, issuedMembers := false, issuedInvitations := false
      issuedJoinRequests := false, failed := true
      state := { st1 with loading := false } }
  | Except.ok g =>
    let st2 := { st1 with group := some g }
    match net.membersRes with
    | Except.error _ =>
      { issuedGroup := true, issuedMembers := true, issuedInvitations := false
        issuedJoinRequests := false, failed := true
        state := { st2 with loading := false } }
    | Except.ok ms =>
      let st3 := { st2 with members := ms }
      if canManageMembership g.membership then
        match net.invitationsRes with
        | Except.error _ =>
          { issuedGroup := true, issuedMembers := true, issuedInvitations := true
            issuedJoinRequests := false, failed := true
            state := { st3 with loading := false } }
        | Except.ok invs =>
          let st4 := { st3 with invitations := invs }
          match net.joinRequestsRes with
          | Except.error _ =>
            { issuedGroup := true, issuedMembers := true
              issuedInvitations := true, issuedJoinRequests := true
              failed := true, state := { st4 with loading := false } }
          | Except.ok jrs =>
            { issuedGroup := true, issuedMembers := true
              issuedInvitations := true, issuedJoinRequests := true
              failed := false
              state := { st4 with joinRequests := jrs, loading := false } }
      else
        { issuedGroup := true, issuedMembers := true, issuedInvitations := false
          issuedJoinRequests := false, failed := false
          state := { st3 with loading := false } }

/-- True when the sequence of fetches actually issued by `loadGroupData`
contains a failing one among group details, members and invitations. -/
def sequentialFetchFails (net : GroupDetailNet) : Bool :=
  match net.groupRes with
  | Except.error _ => true
  | Except.ok g =>
    match net.membersRes with
    | Except.error _ => true
    | Except.ok _ =>
      canManageMembership g.membership &&
        (match net.invitationsRes with
         | Except.error _ => true
         | Except.ok _ => false)

/-- True exactly on the `Except.error` constructor. -/
def exceptFailed {α : Type} (r : Except AxiosError α) : Bool :=
  match r with
  | Except.error _ => true
  | Except.ok _ => false

/-- The API calls the destructive `GroupDetail` handlers can issue. -/
inductive ApiCall where
  | deleteGroup (groupId : String)
  | removeGroupMember (groupId userId : String)
  | revokeInvitation (groupId invitationId : String)
  | denyJoinRequest (groupId requestId comment : String)
deriving DecidableEq

/-- `handleDeleteGroup` (`GroupDetail.tsx` lines 100-113) up to the point
the network call is issued: `if (!group || !window.confirm(...)) return;`
means no call and no state change unless the group is loaded and the user
confirmed.  The returned state is the page state when the handler returns
control (the handler itself never mutates state; on success the page
navigates away, on failure it toasts). -/
def handleDeleteGroup (st : PageState) (confirmed : Bool) :
    Option ApiCall × PageState :=
  match st.group with
  | none => (none, st)
  | some g =>
    if confirmed then (some (ApiCall.deleteGroup g.id), st) else (none, st)

/-- `handleRemoveMember` (`GroupDetail.tsx` lines 115-128), same guard
shape; on success the page re-fetches via `loadGroupData`. -/
def handleRemoveMember (st : PageState) (confirmed : Bool) (userId : String) :
    Option ApiCall × PageState :=
  match st.group with
  | none => (none, st)
  | some g =>
    if confirmed then (some (ApiCall.removeGroupMember g.id userId), st)
    else (none, st)

/-- `handleRevokeInvitation` (`GroupDetail.tsx` lines 143-156), same guard
shape; on success the page re-fetches via `loadGroupData`. -/
def handleRevokeInvitation (st : PageState) (confirmed : Bool)
    (invitationId : String) : Option ApiCall × PageState :=
  match st.group with
  | none => (none, st)
  | some g =>
    if confirmed then (some (ApiCall.revokeInvitation g.id invitationId), st)
    else (none, st)

/-- `handleDenyJoinRequest` (`GroupDetail.tsx` lines 171-184), same guard
shape; on success the page re-fetches via `loadGroupData`. -/
def handleDenyJoinRequest (st : PageState) (confirmed : Bool)
    (requestId comment : String) : Option ApiCall × PageState :=
  match st.group with
  | none => (none, st)
  | some g =>
    if confirmed then (some (ApiCall.denyJoinRequest g.id requestId comment), st)
    else (none, st)

/-- One row of the invitations tab of `GroupDetail` (lines 517-543): the
status badge shows `invitation.status` verbatim and the Revoke button is
shown exactly when `invitation.status === 'pending'`.  No field of the row
depends on the current time. -/
structure InvitationRow where
  email : String
  roleBadge : String
  statusBadge : String
  showRevoke : Bool
deriving DecidableEq

/-- Rendering of one invitation in the `GroupDetail` invitations tab. -/
def renderInvitationRow (inv : GroupInvitation) : InvitationRow :=
  { email := inv.email
    roleBadge := inv.role
    statusBadge := inv.status
    showRevoke := inv.status == "pending" }

/-- The invitation info loaded by the `AcceptInvitation` page
(`groupsAPI.getInvitationInfo`); `expires_at` is the parsed timestamp. -/
structure InvitationInfo where
  group_name : String
  group_description : String
  role : String
  expires_at : Int
  is_valid : Bool
deriving DecidableEq

/-- The four alternative panels the `AcceptInvitation` page can show once
the invitation info is loaded. -/
inductive AcceptInvitationView where
  | expiredNotice
  | invalidNotice
  | signInPrompt
  | acceptPrompt
deriving DecidableEq

/-- The panel choice of `AcceptInvitation` (lines 264 and 339-401):
`isExpired = new Date(info.expires_at) < new Date()` is checked first, then
`!info.is_valid`, then `!user`. -/
def acceptInvitationPanel (info : InvitationInfo) (now : Int)
    (userPresent : Bool) : AcceptInvitationView :=
  if info.expires_at < now then AcceptInvitationView.expiredNotice
  else if !info.is_valid then AcceptInvitationView.invalidNotice
  else if !userPresent then AcceptInvitationView.signInPrompt
  else AcceptInvitationView.acceptPrompt

/-! ### Concrete inputs for counterexamples and witnesses -/

/-- A legacy `client` object carrying concrete user fields. -/
def legacyClientCE : ClientObj :=
  { id := JVal.str "u1", email := JVal.str "u1@example.org"
    display_name := JVal.str "u-one", full_name := JVal.str "User One" }

/-- A legacy-shaped session payload with a missing verification flag. -/
def legacyPayloadCE : SessionPayload :=
  { client := some legacyClientCE, id := JVal.undef, email := JVal.undef
    preferred_username := JVal.undef, full_name := JVal.undef
    email_verified := JVal.undef, group_memberships := none
    pending_invitations_count := none }

/-- The flat-shaped payload carrying the same user fields as
`legacyPayloadCE`, with the same missing verification flag. -/
def flatPayloadCE : SessionPayload :=
  { client := none, id := JVal.str "u1", email := JVal.str "u1@example.org"
    preferred_username := JVal.str "u-one", full_name := JVal.str "User One"
    email_verified := JVal.undef, group_memberships := none
    pending_invitations_count := none }

/-- A legacy `client` object for the witness pair. -/
def legacyClientW : ClientObj :=
  { id := JVal.str "u2", email := JVal.str "u2@example.org"
    display_name := JVal.str "u-two", full_name := JVal.str "User Two" }

/-- A legacy-shaped payload whose verification flag is present (truthy). -/
def legacyPayloadW : SessionPayload :=
  { client := some legacyClientW, id := JVal.undef, email := JVal.undef
    preferred_username := JVal.undef, full_name := JVal.undef
    email_verified := JVal.bool true, group_memberships := none
    pending_invitations_count := none }

/-- The flat-shaped payload equivalent to `legacyPayloadW`. -/
def flatPayloadW : SessionPayload :=
  { client := none, id := JVal.str "u2", email := JVal.str "u2@example.org"
    preferred_username := JVal.str "u-two", full_name := JVal.str "User Two"
    email_verified := JVal.bool true, group_memberships := none
    pending_invitations_count := none }

/-! ### C1 -/

/-- Claim C1, as stated, is false on the code: the two payloads below carry
equivalent user fields (legacy vs flat), both with the verification flag
missing, yet normalization yields different `User` records — the legacy
branch defaults `email_verified` to `"unknown"` while the flat branch
passes the missing value through unchanged. -/
theorem session_normalization_counterexample :
    legacyPayloadCE.client = some legacyClientCE ∧
    flatPayloadCE.client = none ∧
    legacyClientCE.id = flatPayloadCE.id ∧
    legacyClientCE.email = flatPayloadCE.email ∧
    legacyClientCE.display_name = flatPayloadCE.preferred_username ∧
    legacyClientCE.full_name = flatPayloadCE.full_name ∧
    legacyPayloadCE.email_verified = flatPayloadCE.email_verified ∧
    legacyPayloadCE.group_memberships = flatPayloadCE.group_memberships ∧
    legacyPayloadCE.pending_invitations_count
      = flatPayloadCE.pending_invitations_count ∧
    normalizeUser legacyPayloadCE ≠ normalizeUser flatPayloadCE ∧
    (normalizeUser flatPayloadCE).email_verified ≠ JVal.str "unknown" := by
  decide

/-- Claim C1 (corrected): for equivalent legacy and flat session payloads
the Session Manager produces an identical `User` record provided the
verification flag is present and truthy; the `"unknown"` sentinel default
applies only to the legacy shape — a legacy payload with a missing (or
otherwise falsy) flag gets `"unknown"`, while the flat shape keeps the raw
value. -/
theorem session_normalization_amended :
    ∀ (L F : SessionPayload) (c : ClientObj),
      L.client = some c → F.client = none →
      c.id = F.id → c.email = F.email →
      c.display_name = F.preferred_username →
      c.full_name = F.full_name →
      L.email_verified = F.email_verified →
      L.group_memberships = F.group_memberships →
      L.pending_invitations_count = F.pending_invitations_count →
      (truthy F.email_verified = true →
        normalizeUser L = normalizeUser F) ∧
      (truthy L.email_verified = false →
        (normalizeUser L).email_verified = JVal.str "unknown") := by
  intro L F c hL hF hid hem hdn hfn hev hgm hpc
  constructor
  · intro ht
    simp [normalizeUser, hL, hF, jor, hev, ht, hid, hem, hdn, hfn, hgm, hpc]
  · intro hf
    simp [normalizeUser, hL, jor, hf]

/-- Witness for C1's amended theorem at the concrete equivalent pair with a
truthy verification flag. -/
theorem session_normalization_amended_witness :
    normalizeUser legacyPayloadW = normalizeUser flatPayloadW :=
  (session_normalization_amended legacyPayloadW flatPayloadW legacyClientW
    rfl rfl rfl rfl rfl rfl rfl rfl rfl).1 rfl

/-! ### C2 -/

/-- Claim C2 (confirmed): on any HTTP 401 error, the response interceptor —
installed by `setupInterceptors` on both axios instances with the same
`AUTH_API_BASE_URL` — assigns `window.location.href` the login URL with the
current page URL as the encoded `referrer` parameter, and the in-flight
promise is rejected, never resolving normally to the caller. -/
theorem interceptor_401_redirects :
    ∀ (authBaseUrl currentHref : String) (e : AxiosError) (r : ErrResponse),
      e.response = some r → r.status = 401 →
      (responseErrorInterceptor authBaseUrl currentHref e).browserRedirect =
        some (authBaseUrl ++ "/login?referrer="
          ++ encodeURIComponent currentHref) ∧
      (responseErrorInterceptor authBaseUrl currentHref e).result =
        Except.error e := by
  intro a h e r hresp hstat
  simp [responseErrorInterceptor, is401, hresp, hstat]

/-- A concrete 401 error for the C2 witness. -/
def unauthorizedErrorW : AxiosError :=
  { response := some { status := 401, data := none }, request := true
    userMessage := none }

/-- Witness for C2 at a concrete 401 error. -/
theorem interceptor_401_redirects_witness :
    (responseErrorInterceptor "https://host/authn" "https://host/app?tab=2"
        unauthorizedErrorW).browserRedirect =
      some ("https://host/authn" ++ "/login?referrer="
        ++ encodeURIComponent "https://host/app?tab=2") ∧
    (responseErrorInterceptor "https://host/authn" "https://host/app?tab=2"
        unauthorizedErrorW).result = Except.error unauthorizedErrorW :=
  interceptor_401_redirects "https://host/authn" "https://host/app?tab=2"
    unauthorizedErrorW { status := 401, data := none } rfl rfl

/-! ### C3 -/

/-- Claim C3 (confirmed): a session fetch failing with HTTP 404 resolves to
the empty session — the user is set to `none` and no error is set
(`fetchUser` clears the error on entry and the 404 branch never sets
one). -/
theorem session_404_empty :
    ∀ (st : AuthState) (e : AxiosError), is404 e = true →
      fetchUser st (FetchResult.failure e) =
        { user := none, loading := false, error := none } := by
  intro st e h
  simp [fetchUser, h]

/-- A concrete 404 error for the C3 witness. -/
def notFoundErrorW : AxiosError :=
  { response := some { status := 404, data := none }, request := true
    userMessage := none }

/-- A concrete prior auth state (a previously stored user) for the C3
witness. -/
def priorAuthStateW : AuthState :=
  { user := some (normalizeUser flatPayloadW), loading := false
    error := some "old" }

/-- Witness for C3 at a concrete 404 failure from a non-empty prior
state. -/
theorem session_404_empty_witness :
    fetchUser priorAuthStateW (FetchResult.failure notFoundErrorW) =
      { user := none, loading := false, error := none } :=
  session_404_empty priorAuthStateW notFoundErrorW (by decide)

/-! ### C6 -/

/-- Claim C6 (confirmed): a session fetch failing with anything other than
HTTP 404 sets the generic session-fetch error message and leaves the
previously stored user untouched. -/
theorem session_error_keeps_user :
    ∀ (st : AuthState) (e : AxiosError), is404 e = false →
      (fetchUser st (FetchResult.failure e)).user = st.user ∧
      (fetchUser st (FetchResult.failure e)).error =
        some "Failed to fetch user information" := by
  intro st e h
  simp [fetchUser, h]

/-- A concrete 500 error for the C6 witness. -/
def serverErrorW : AxiosError :=
  { response := some { status := 500, data := none }, request := true
    userMessage := none }

/-- A concrete prior auth state for the C6 witness. -/
def priorAuthState2W : AuthState :=
  { user := some (normalizeUser legacyPayloadW), loading := false
    error := none }

/-- Witness for C6 at a concrete 500 failure from a state holding a
user. -/
theorem session_error_keeps_user_witness :
    (fetchUser priorAuthState2W (FetchResult.failure serverErrorW)).user =
      priorAuthState2W.user ∧
    (fetchUser priorAuthState2W (FetchResult.failure serverErrorW)).error =
      some "Failed to fetch user information" :=
  session_error_keeps_user priorAuthState2W serverErrorW (by decide)

/-! ### C4 -/

/-- A received response (status 500) whose body is empty/falsy, with the
request object present — the situation axios produces for an error reply
with no JSON body. -/
def emptyBodyErrorCE : AxiosError :=
  { response := some { status := 500, data := none }, request := true
    userMessage := none }

/-- Claim C4, as stated, is false on the code: the interceptor branches on
the truthiness of `error.response?.data`, not on whether a response was
received, so a received 500 response with an empty body gets the
connectivity message instead of the generic `Server error (500)`. -/
theorem interceptor_message_counterexample :
    is401 emptyBodyErrorCE = false ∧
    emptyBodyErrorCE.response = some { status := 500, data := none } ∧
    computeUserMessage emptyBodyErrorCE =
      JVal.str "Unable to connect to server. Please check your internet connection." ∧
    computeUserMessage emptyBodyErrorCE ≠ JVal.str "Server error (500)" ∧
    (responseErrorInterceptor "https://host/authn" "https://host/app"
        emptyBodyErrorCE).result =
      Except.error { emptyBodyErrorCE with
        userMessage := some (JVal.str
          "Unable to connect to server. Please check your internet connection.") } := by
  decide

/-- Claim C4 (corrected): for every non-401 error the interceptor computes
exactly one message — preferring the body's `message`, then `error`, then
`detail` when the response body is truthy, else the generic
`Server error (status)` when a truthy body lacks all three, else the
connectivity message when a request object exists (even if a response with
an empty/falsy body was received), else a default message — attaches it to
the error object, performs no redirect, and still rejects with that
error. -/
theorem interceptor_error_message_amended :
    ∀ (authBaseUrl currentHref : String) (e : AxiosError),
      is401 e = false →
      (responseErrorInterceptor authBaseUrl currentHref e).browserRedirect
        = none ∧
      (responseErrorInterceptor authBaseUrl currentHref e).result =
        Except.error { e with userMessage := some (computeUserMessage e) } ∧
      (∀ r d, e.response = some r → r.data = some d →
        computeUserMessage e =
          (if truthy d.message then d.message
           else if truthy d.error then d.error
           else if truthy d.detail then d.detail
           else JVal.str ("Server error (" ++ toString r.status ++ ")"))) ∧
      ((e.response = none ∨ ∃ r, e.response = some r ∧ r.data = none) →
        e.request = true →
        computeUserMessage e =
          JVal.str "Unable to connect to server. Please check your internet connection.") ∧
      ((e.response = none ∨ ∃ r, e.response = some r ∧ r.data = none) →
        e.request = false →
        computeUserMessage e = JVal.str "An unexpected error occurred") := by
  intro a h e h401
  refine ⟨?_, ?_, ?_, ?_, ?_⟩
  · simp [responseErrorInterceptor, h401]
  · simp [responseErrorInterceptor, h401]
  · intro r d hr hd
    simp [computeUserMessage, hr, hd, jor]
  · rintro (hn | ⟨r, hr, hd⟩) hreq
    · simp [computeUserMessage, hn, hreq]
    · simp [computeUserMessage, hr, hd, hreq]
  · rintro (hn | ⟨r, hr, hd⟩) hreq
    · simp [computeUserMessage, hn, hreq]
    · simp [computeUserMessage, hr, hd, hreq]

/-- A 409 error with a structured body whose `message` field is set, for
the C4 witness. -/
def conflictErrorW : AxiosError :=
  { response := some
      { status := 409
        data := some
          { message := JVal.str "Name already taken", error := JVal.undef
            detail := JVal.undef } }
    request := true, userMessage := none }

/-- Witness for C4's amended theorem: at the concrete 409 error the
interceptor performs no redirect and extracts the body's `message`
field. -/
theorem interceptor_error_message_amended_witness :
    (responseErrorInterceptor "https://host/authn" "https://host/app"
        conflictErrorW).browserRedirect = none ∧
    computeUserMessage conflictErrorW = JVal.str "Name already taken" := by
  have h := interceptor_error_message_amended "https://host/authn"
    "https://host/app" conflictErrorW rfl
  refine ⟨h.1, ?_⟩
  have h3 := h.2.2.1
    ⟨409, some ⟨JVal.str "Name already taken", JVal.undef, JVal.undef⟩⟩
    ⟨JVal.str "Name already taken", JVal.undef, JVal.undef⟩ rfl rfl
  exact h3.trans (by decide)

/-! ### C5 -/

/-- An invitation whose `expires_at` (epoch ms 50) is in the past relative
to client time 100, with a `status` field still reading `pending`. -/
def pendingExpiredInvitationCE : GroupInvitation :=
  { id := "inv1", group_id := "g1", email := "invitee@example.org"
    role := "member", token := "tok", created_at := "2024-01-01"
    expires_at := 50, status := "pending", invited_by := "admin" }

/-- Claim C5, as stated, is false on the code: the `GroupDetail`
invitations tab renders the `status` field verbatim and shows the Revoke
button for `pending`, with no dependence on the current time — so this
past-expiry invitation renders as `pending`, not as expired. -/
theorem invitation_tab_counterexample :
    pendingExpiredInvitationCE.expires_at < (100 : Int) ∧
    pendingExpiredInvitationCE.status = "pending" ∧
    (renderInvitationRow pendingExpiredInvitationCE).statusBadge = "pending" ∧
    (renderInvitationRow pendingExpiredInvitationCE).statusBadge ≠ "expired" ∧
    (renderInvitationRow pendingExpiredInvitationCE).showRevoke = true := by
  decide

/-- Claim C5 (corrected): the client-time expiry override holds only on the
invitation-acceptance page — `AcceptInvitation` renders the expired panel
whenever `expires_at` is earlier than the current client time, even when
`is_valid` is still true — while the `GroupDetail` invitations tab renders
the server-reported `status` field unchanged. -/
theorem invitation_expiry_amended :
    ∀ (info : InvitationInfo) (now : Int) (userPresent : Bool)
      (inv : GroupInvitation),
      (info.expires_at < now →
        acceptInvitationPanel info now userPresent =
          AcceptInvitationView.expiredNotice) ∧
      (renderInvitationRow inv).statusBadge = inv.status := by
  intro info now u inv
  constructor
  · intro h
    simp [acceptInvitationPanel, h]
  · rfl

/-- Invitation info whose expiry (epoch ms 50) is already past while
`is_valid` still reads true, for the C5 witness. -/
def expiredInfoW : InvitationInfo :=
  { group_name := "G", group_description := "", role := "member"
    expires_at := 50, is_valid := true }

/-- Witness for C5's amended theorem at client time 100 with a signed-in
user. -/
theorem invitation_expiry_amended_witness :
    acceptInvitationPanel expiredInfoW 100 true =
      AcceptInvitationView.expiredNotice ∧
    (renderInvitationRow pendingExpiredInvitationCE).statusBadge =
      pendingExpiredInvitationCE.status := by
  have h := invitation_expiry_amended expiredInfoW 100 true
    pendingExpiredInvitationCE
  exact ⟨h.1 (by decide), h.2⟩

/-! ### C7 -/

/-- Claim C7 (confirmed): if any of the sequential fetches actually issued
by `loadGroupData` — group details, members, or (for managers)
invitations — fails, the whole load takes the catch path, the dependent
join-requests fetch is never issued, and no fetch after the failing one is
issued. -/
theorem load_failure_skips_remaining :
    ∀ (st : PageState) (net : GroupDetailNet),
      sequentialFetchFails net = true →
      (loadGroupData st net).failed = true ∧
      (loadGroupData st net).issuedJoinRequests = false ∧
      (exceptFailed net.groupRes = true →
        (loadGroupData st net).issuedMembers = false ∧
        (loadGroupData st net).issuedInvitations = false) ∧
      (exceptFailed net.membersRes = true →
        (loadGroupData st net).issuedInvitations = false) := by
  intro st net h
  cases hg : net.groupRes with
  | error e =>
    simp [loadGroupData, exceptFailed, hg]
  | ok g =>
    cases hm : net.membersRes with
    | error e =>
      simp [loadGroupData, exceptFailed, hg, hm]
    | ok ms =>
      simp only [sequentialFetchFails, hg, hm, Bool.and_eq_true] at h
      cases hi : net.invitationsRes with
      | error e =>
        simp [loadGroupData, exceptFailed, hg, hm, hi, h.1]
      | ok invs =>
        rw [hi] at h
        simp at h

/-- A group whose fetched membership is a manager, for the C7 witness. -/
def managerGroupW : Group :=
  { id := "g1", name := "G", description := "", visibility := "private"
    created_at := "", updated_at := "", created_by := "u0"
    membership := some
      { group_id := "g1", user_id := "u1", user_email := "mgr@example.org"
        role := "manager", joined_at := "", updated_at := "", added_by := "u0" }
    member_count := none }

/-- A network outcome where group details succeed but the members fetch
fails, for the C7 witness. -/
def membersFailNetW : GroupDetailNet :=
  { groupRes := Except.ok managerGroupW
    membersRes := Except.error
      { response := some { status := 500, data := none }, request := true
        userMessage := none }
    invitationsRes := Except.ok []
    joinRequestsRes := Except.ok [] }

/-- Witness for C7 at a concrete load whose members fetch fails: the load
fails and neither invitations nor join requests are fetched. -/
theorem load_failure_skips_remaining_witness :
    (loadGroupData initialPageState membersFailNetW).failed = true ∧
    (loadGroupData initialPageState membersFailNetW).issuedJoinRequests
      = false ∧
    (loadGroupData initialPageState membersFailNetW).issuedInvitations
      = false := by
  have h := load_failure_skips_remaining initialPageState membersFailNetW
    (by decide)
  exact ⟨h.1, h.2.1, h.2.2.2 (by decide)⟩

/-! ### C8 -/

/-- Claim C8 (confirmed): each destructive handler of `GroupDetail`
(revoke invitation, delete group, remove member, deny join request) issues
its API call only after the `window.confirm` step returns true; when the
confirmation is cancelled the handler returns immediately, issuing no
network call and leaving the page state (the invitation list included)
unchanged. -/
theorem destructive_actions_require_confirmation :
    ∀ (st : PageState) (conf : Bool) (invId uid rid comment : String),
      (conf = false →
        handleRevokeInvitation st conf invId = (none, st) ∧
        handleDeleteGroup st conf = (none, st) ∧
        handleRemoveMember st conf uid = (none, st) ∧
        handleDenyJoinRequest st conf rid comment = (none, st)) ∧
      ((handleRevokeInvitation st conf invId).1.isSome = true →
        conf = true) ∧
      ((handleDeleteGroup st conf).1.isSome = true → conf = true) ∧
      ((handleRemoveMember st conf uid).1.isSome = true → conf = true) ∧
      ((handleDenyJoinRequest st conf rid comment).1.isSome = true →
        conf = true) := by
  intro st conf invId uid rid comment
  cases hg : st.group <;> cases conf <;>
    simp [handleRevokeInvitation, handleDeleteGroup, handleRemoveMember,
      handleDenyJoinRequest, hg]

/-- A page state with a loaded group and a pending invitation, for the C8
witness. -/
def loadedPageStateW : PageState :=
  { group := some managerGroupW
    members := []
    invitations := [pendingExpiredInvitationCE]
    joinRequests := []
    loading := false }

/-- Witness for C8: cancelling the confirmation on each destructive action
from a loaded page issues no call and returns the state unchanged. -/
theorem destructive_actions_require_confirmation_witness :
    handleRevokeInvitation loadedPageStateW false "inv1" =
      (none, loadedPageStateW) ∧
    handleDeleteGroup loadedPageStateW false = (none, loadedPageStateW) ∧
    handleRemoveMember loadedPageStateW false "u9" =
      (none, loadedPageStateW) ∧
    handleDenyJoinRequest loadedPageStateW false "r1" "" =
      (none, loadedPageStateW) := by
  have h := destructive_actions_require_confirmation loadedPageStateW false
    "inv1" "u9" "r1" ""
  exact h.1 rfl

/-! ### C9 -/

/-- Claim C9 (confirmed): `authAPI.logout` wraps the `/logout` call in a
try/catch whose catch block only logs, so for every outcome of the call —
success with a truthy `logout_url`, success without one, or any failure —
the operation resolves without throwing; nothing propagates to the
`AuthContext.logout` caller. -/
theorem logout_never_throws :
    ∀ result : Except AxiosError (Option LogoutBody),
      (authLogout result).threw = false := by
  intro r
  cases r with
  | error e => rfl
  | ok o =>
    cases o with
    | none => rfl
    | some b =>
      cases htr : truthy b.logout_url <;> simp [authLogout, htr]

/-! ### C10 -/

/-- Claim C10 (confirmed): when the fetched group's membership role is
neither `administrator` nor `manager` (absent membership included),
`loadGroupData` issues neither the invitations fetch nor the join-requests
fetch, and both lists keep their empty initial value. -/
theorem nonmanager_no_invitations_fetch :
    ∀ (net : GroupDetailNet) (g : Group),
      net.groupRes = Except.ok g →
      canManageMembership g.membership = false →
      (loadGroupData initialPageState net).issuedInvitations = false ∧
      (loadGroupData initialPageState net).issuedJoinRequests = false ∧
      (loadGroupData initialPageState net).state.invitations = [] ∧
      (loadGroupData initialPageState net).state.joinRequests = [] := by
  intro net g hg hm
  cases hms : net.membersRes <;>
    simp [loadGroupData, hg, hms, hm, initialPageState]

/-- A group whose fetched membership is a plain member, for the C10
witness. -/
def memberGroupW : Group :=
  { id := "g2", name := "H", description := "", visibility := "public"
    created_at := "", updated_at := "", created_by := "u0"
    membership := some
      { group_id := "g2", user_id := "u3", user_email := "mem@example.org"
        role := "member", joined_at := "", updated_at := "", added_by := "u0" }
    member_count := none }

/-- A network outcome where group and members succeed for a plain member,
for the C10 witness. -/
def memberRoleNetW : GroupDetailNet :=
  { groupRes := Except.ok memberGroupW
    membersRes := Except.ok []
    invitationsRes := Except.ok [pendingExpiredInvitationCE]
    joinRequestsRes := Except.ok [] }

/-- Witness for C10 at a concrete load by a plain member. -/
theorem nonmanager_no_invitations_fetch_witness :
    (loadGroupData initialPageState memberRoleNetW).issuedInvitations
      = false ∧
    (loadGroupData initialPageState memberRoleNetW).issuedJoinRequests
      = false ∧
    (loadGroupData initialPageState memberRoleNetW).state.invitations = [] ∧
    (loadGroupData initialPageState memberRoleNetW).state.joinRequests
      = [] :=
  nonmanager_no_invitations_fetch memberRoleNetW memberGroupW rfl (by decide)

end DerivaGroupsUI
